import Mathlib

/-!
Shallow embedding of `scripts/generate-security-report.py` (class
`SecurityReportGenerator`).  Python dictionaries with a fixed key set are
modelled as structures; JSON fields that may be absent are `Option`s with the
same defaults the code applies via `dict.get`; the mutable `report_data`
dictionary is the `ReportData` structure threaded through every operation;
`datetime.now()` is an explicit string parameter.
-/

namespace SecReport

/-- Values a loader may attach in the open attribute bag of a finding. -/
inductive AttrValue where
  | str : String → AttrValue
  | num : Nat → AttrValue
  | strList : List String → AttrValue
deriving DecidableEq, Repr

/-- One normalized finding, as built by the loaders: the fixed fields every
loader writes plus the loader-specific extra keys. -/
structure Finding where
  title : String
  description : String
  severity : String
  category : String
  tool : String
  extras : List (String × AttrValue)
deriving DecidableEq, Repr

/-- The `summary` dictionary of `report_data`. -/
structure Summary where
  critical : Nat
  high : Nat
  medium : Nat
  low : Nat
deriving DecidableEq, Repr

/-- The `scan_metadata` dictionary of `report_data`. -/
structure ScanMetadata where
  generated_at : String
  project : String
  version : String
deriving DecidableEq, Repr

/-- The `standards` dictionary built by `generate_compliance_status`. -/
structure Standards where
  owasp_top_10 : String
  cis_benchmarks : String
  soc_2 : String
  gdpr : String
deriving DecidableEq, Repr

/-- The `compliance_status` dictionary built by `generate_compliance_status`. -/
structure ComplianceStatus where
  overall_status : String
  standards : Standards
  last_updated : String
deriving DecidableEq, Repr

/-- The `report_data` dictionary owned by `SecurityReportGenerator`;
`compliance_status` starts as the empty dict, modelled as `none`. -/
structure ReportData where
  summary : Summary
  findings : List Finding
  critical_findings : List Finding
  high_findings : List Finding
  medium_findings : List Finding
  low_findings : List Finding
  recommendations : List String
  compliance_status : Option ComplianceStatus
  scan_metadata : ScanMetadata
deriving DecidableEq, Repr

/-- `SecurityReportGenerator.__init__`: the initial `report_data`;
`now` stands for `datetime.now().isoformat()`. -/
def initReportData (now : String) : ReportData :=
  { summary := { critical := 0, high := 0, medium := 0, low := 0 }
    findings := []
    critical_findings := []
    high_findings := []
    medium_findings := []
    low_findings := []
    recommendations := []
    compliance_status := none
    scan_metadata := { generated_at := now, project := "CodePal", version := "1.0.0" } }

/-- `SecurityReportGenerator._add_finding`: append to `findings`, then an
`if/elif` chain on the exact severity string updates the matching bucket; a
severity matching no branch falls through with no bucket or counter change. -/
def add_finding (r : ReportData) (f : Finding) : ReportData :=
  let r := { r with findings := r.findings ++ [f] }
  if f.severity = "CRITICAL" then
    { r with critical_findings := r.critical_findings ++ [f]
             summary := { r.summary with critical := r.summary.critical + 1 } }
  else if f.severity = "HIGH" then
    { r with high_findings := r.high_findings ++ [f]
             summary := { r.summary with high := r.summary.high + 1 } }
  else if f.severity = "MEDIUM" then
    { r with medium_findings := r.medium_findings ++ [f]
             summary := { r.summary with medium := r.summary.medium + 1 } }
  else if f.severity = "LOW" then
    { r with low_findings := r.low_findings ++ [f]
             summary := { r.summary with low := r.summary.low + 1 } }
  else r

/-- Python `startswith` on character lists. -/
def leadsWithChars : List Char → List Char → Bool
  | [], _ => true
  | _ :: _, [] => false
  | p :: ps, c :: cs => p == c && leadsWithChars ps cs

/-- Python substring containment (`pat in s`) on character lists. -/
def containsChars (pat : List Char) : List Char → Bool
  | [] => leadsWithChars pat []
  | c :: cs => leadsWithChars pat (c :: cs) || containsChars pat cs

/-- Python `pat in s` on strings. -/
def substrOf (pat s : String) : Bool :=
  containsChars pat.data s.data

/-- Python `str.upper()` (character-wise, which is what `.upper()` does on the
ASCII severity vocabularies involved). -/
def strUpper (s : String) : String :=
  ⟨s.data.map Char.toUpper⟩

/-- Python `str.lower()` (character-wise). -/
def strLower (s : String) : String :=
  ⟨s.data.map Char.toLower⟩

/-! ## Loaders

Each loader models one `_load_*` / `_process_*` method.  A loader input of
`none` models the absent (or unparsable, hence skipped) file; `some` carries
the parsed JSON structure restricted to the fields the loader reads, with
`Option` fields for keys `dict.get` may find missing. -/

/-- One entry of `runs[].results[]` in a Trivy SARIF file. -/
structure SarifResult where
  level : Option String
  message_text : Option String
  location_uri : Option String
  ruleId : Option String
deriving DecidableEq, Repr

/-- One entry of `runs[]` in a Trivy SARIF file. -/
structure SarifRun where
  results : List SarifResult
deriving DecidableEq, Repr

/-- The finding dict built inside `_load_trivy_results`. -/
def trivy_finding (res : SarifResult) : Finding :=
  { title := res.message_text.getD "Unknown"
    description := res.message_text.getD ""
    severity := strUpper (res.level.getD "warning")
    category := "Container Vulnerability"
    tool := "Trivy"
    extras := [("location", .str (res.location_uri.getD "")),
               ("rule_id", .str (res.ruleId.getD ""))] }

/-- `SecurityReportGenerator._load_trivy_results`. -/
def _load_trivy_results (r : ReportData) (o : Option (List SarifRun)) : ReportData :=
  match o with
  | none => r
  | some runs =>
      runs.foldl (fun r rn => rn.results.foldl (fun r res => add_finding r (trivy_finding res)) r) r

/-- One entry of `vulnerabilities[]` in a Snyk result file. -/
structure SnykVuln where
  severity : Option String
  title : Option String
  description : Option String
  packageName : Option String
  version : Option String
  cve : List String
deriving DecidableEq, Repr

/-- The finding dict built inside `_load_snyk_results`. -/
def snyk_finding (v : SnykVuln) : Finding :=
  { title := v.title.getD "Unknown"
    description := v.description.getD ""
    severity := strUpper (v.severity.getD "medium")
    category := "Dependency Vulnerability"
    tool := "Snyk"
    extras := [("package", .str (v.packageName.getD "")),
               ("version", .str (v.version.getD "")),
               ("cve", .strList v.cve)] }

/-- The body of the `for snyk_file in snyk_files` loop of
`_load_snyk_results`: one optional Snyk file. -/
def _load_snyk_one (r : ReportData) (o : Option (List SnykVuln)) : ReportData :=
  match o with
  | none => r
  | some vulns => vulns.foldl (fun r v => add_finding r (snyk_finding v)) r

/-- `SecurityReportGenerator._load_snyk_results`: two optional files, the
container results then the dependency results, in that order. -/
def _load_snyk_results (r : ReportData) (container dependency : Option (List SnykVuln)) :
    ReportData :=
  _load_snyk_one (_load_snyk_one r container) dependency

/-- One value of the `vulnerabilities` dict in an npm audit file. -/
structure NpmVuln where
  severity : Option String
  title : Option String
  description : Option String
  name : Option String
  version : Option String
  cves : List String
deriving DecidableEq, Repr

/-- The finding dict built inside `_load_npm_audit_results`. -/
def npm_finding (v : NpmVuln) : Finding :=
  { title := v.title.getD "Unknown"
    description := v.description.getD ""
    severity := strUpper (v.severity.getD "medium")
    category := "Dependency Vulnerability"
    tool := "npm audit"
    extras := [("package", .str (v.name.getD "")),
               ("version", .str (v.version.getD "")),
               ("cve", .strList v.cves)] }

/-- `SecurityReportGenerator._load_npm_audit_results`. -/
def _load_npm_audit_results (r : ReportData) (o : Option (List NpmVuln)) : ReportData :=
  match o with
  | none => r
  | some vulns => vulns.foldl (fun r v => add_finding r (npm_finding v)) r

/-- `SecurityReportGenerator._load_secrets_results` is `pass`. -/
def _load_secrets_results (r : ReportData) : ReportData := r

/-- One entry of `results.failed_checks[]` in a Checkov file. -/
structure CheckovCheck where
  severity : Option String
  check_name : Option String
  evaluated_iam_statement : Option String
  resource : Option String
  file_path : Option String
deriving DecidableEq, Repr

/-- The finding dict built inside `_process_checkov_results`. -/
def checkov_finding (c : CheckovCheck) : Finding :=
  { title := c.check_name.getD "Unknown"
    description := c.evaluated_iam_statement.getD ""
    severity := strUpper (c.severity.getD "MEDIUM")
    category := "Infrastructure Security"
    tool := "Checkov"
    extras := [("resource", .str (c.resource.getD "")),
               ("file", .str (c.file_path.getD ""))] }

/-- `SecurityReportGenerator._process_checkov_results`. -/
def _process_checkov_results (r : ReportData) (checks : List CheckovCheck) : ReportData :=
  checks.foldl (fun r c => add_finding r (checkov_finding c)) r

/-- One entry of `results[]` in a Tfsec file. -/
structure TfsecResult where
  severity : Option String
  rule_id : Option String
  description : Option String
  resource : Option String
  location_filename : Option String
deriving DecidableEq, Repr

/-- The finding dict built inside `_process_tfsec_results`. -/
def tfsec_finding (res : TfsecResult) : Finding :=
  { title := res.rule_id.getD "Unknown"
    description := res.description.getD ""
    severity := strUpper (res.severity.getD "MEDIUM")
    category := "Infrastructure Security"
    tool := "Tfsec"
    extras := [("resource", .str (res.resource.getD "")),
               ("file", .str (res.location_filename.getD ""))] }

/-- `SecurityReportGenerator._process_tfsec_results`. -/
def _process_tfsec_results (r : ReportData) (results : List TfsecResult) : ReportData :=
  results.foldl (fun r res => add_finding r (tfsec_finding res)) r

/-- One entry of `results.violations[]` in a Terrascan file. -/
structure TerrascanViolation where
  severity : Option String
  rule_name : Option String
  description : Option String
  resource_type : Option String
  file : Option String
deriving DecidableEq, Repr

/-- The finding dict built inside `_process_terrascan_results`. -/
def terrascan_finding (res : TerrascanViolation) : Finding :=
  { title := res.rule_name.getD "Unknown"
    description := res.description.getD ""
    severity := strUpper (res.severity.getD "MEDIUM")
    category := "Infrastructure Security"
    tool := "Terrascan"
    extras := [("resource", .str (res.resource_type.getD "")),
               ("file", .str (res.file.getD ""))] }

/-- `SecurityReportGenerator._process_terrascan_results`. -/
def _process_terrascan_results (r : ReportData) (violations : List TerrascanViolation) :
    ReportData :=
  violations.foldl (fun r res => add_finding r (terrascan_finding res)) r

/-- `SecurityReportGenerator._load_infrastructure_results`: the three optional
files in list order, dispatched to their processors. -/
def _load_infrastructure_results (r : ReportData) (checkov : Option (List CheckovCheck))
    (tfsec : Option (List TfsecResult)) (terrascan : Option (List TerrascanViolation)) :
    ReportData :=
  let r := match checkov with
    | none => r
    | some d => _process_checkov_results r d
  let r := match tfsec with
    | none => r
    | some d => _process_tfsec_results r d
  match terrascan with
  | none => r
  | some d => _process_terrascan_results r d

/-- One entry of `results[].checks[]` in a Polaris file. -/
structure PolarisCheck where
  name : Option String
  message : Option String
  result : Option String
deriving DecidableEq, Repr

/-- One entry of `results[]` in a Polaris file. -/
structure PolarisResult where
  kind : Option String
  ns : Option String
  checks : List PolarisCheck
deriving DecidableEq, Repr

/-- The finding dict built inside `_process_polaris_results`
(severity fixed at MEDIUM: Polaris provides none). -/
def polaris_finding (res : PolarisResult) (c : PolarisCheck) : Finding :=
  { title := c.name.getD "Unknown"
    description := c.message.getD ""
    severity := "MEDIUM"
    category := "Kubernetes Security"
    tool := "Polaris"
    extras := [("resource", .str (res.kind.getD "")),
               ("namespace", .str (res.ns.getD ""))] }

/-- `SecurityReportGenerator._process_polaris_results`: only checks whose
`result` equals `"FAIL"` become findings. -/
def _process_polaris_results (r : ReportData) (results : List PolarisResult) : ReportData :=
  results.foldl (fun r res =>
    res.checks.foldl (fun r c =>
      if c.result = some "FAIL" then add_finding r (polaris_finding res c) else r) r) r

/-- One entry of `tests[].results[]` in a kube-bench file. -/
structure KubeBenchItem where
  status : Option String
  test_desc : Option String
  test_info : Option String
  test_number : Option String
deriving DecidableEq, Repr

/-- One entry of `tests[]` in a kube-bench file. -/
structure KubeBenchTest where
  results : List KubeBenchItem
deriving DecidableEq, Repr

/-- The finding dict built inside `_process_kubebench_results`
(severity fixed at MEDIUM: kube-bench provides none). -/
def kubebench_finding (i : KubeBenchItem) : Finding :=
  { title := i.test_desc.getD "Unknown"
    description := i.test_info.getD ""
    severity := "MEDIUM"
    category := "Kubernetes Security"
    tool := "Kube-bench"
    extras := [("test_number", .str (i.test_number.getD ""))] }

/-- `SecurityReportGenerator._process_kubebench_results`: only results whose
`status` equals `"FAIL"` become findings. -/
def _process_kubebench_results (r : ReportData) (tests : List KubeBenchTest) : ReportData :=
  tests.foldl (fun r t =>
    t.results.foldl (fun r i =>
      if i.status = some "FAIL" then add_finding r (kubebench_finding i) else r) r) r

/-- `SecurityReportGenerator._load_kubernetes_results`: the two optional files
in list order, dispatched to their processors. -/
def _load_kubernetes_results (r : ReportData) (polaris : Option (List PolarisResult))
    (kubebench : Option (List KubeBenchTest)) : ReportData :=
  let r := match polaris with
    | none => r
    | some d => _process_polaris_results r d
  match kubebench with
  | none => r
  | some d => _process_kubebench_results r d

/-- One entry of `results[]` in a Bandit file. -/
structure BanditResult where
  issue_severity : Option String
  issue_text : Option String
  more_info : Option String
  filename : Option String
  line_number : Option Nat
deriving DecidableEq, Repr

/-- The finding dict built inside `_process_bandit_results`. -/
def bandit_finding (res : BanditResult) : Finding :=
  { title := res.issue_text.getD "Unknown"
    description := res.more_info.getD ""
    severity := strUpper (res.issue_severity.getD "MEDIUM")
    category := "Code Security"
    tool := "Bandit"
    extras := [("file", .str (res.filename.getD "")),
               ("line", match res.line_number with | some n => .num n | none => .str "")] }

/-- `SecurityReportGenerator._process_bandit_results`. -/
def _process_bandit_results (r : ReportData) (results : List BanditResult) : ReportData :=
  results.foldl (fun r res => add_finding r (bandit_finding res)) r

/-- One entry of `results[]` in a Semgrep file. -/
structure SemgrepResult where
  extra_severity : Option String
  check_id : Option String
  extra_message : Option String
  path : Option String
  start_line : Option Nat
deriving DecidableEq, Repr

/-- The finding dict built inside `_process_semgrep_results`. -/
def semgrep_finding (res : SemgrepResult) : Finding :=
  { title := res.check_id.getD "Unknown"
    description := res.extra_message.getD ""
    severity := strUpper (res.extra_severity.getD "MEDIUM")
    category := "Code Security"
    tool := "Semgrep"
    extras := [("file", .str (res.path.getD "")),
               ("line", match res.start_line with | some n => .num n | none => .str "")] }

/-- `SecurityReportGenerator._process_semgrep_results`. -/
def _process_semgrep_results (r : ReportData) (results : List SemgrepResult) : ReportData :=
  results.foldl (fun r res => add_finding r (semgrep_finding res)) r

/-- `SecurityReportGenerator._load_compliance_results`: the two optional files
in list order, dispatched to their processors. -/
def _load_compliance_results (r : ReportData) (bandit : Option (List BanditResult))
    (semgrep : Option (List SemgrepResult)) : ReportData :=
  let r := match bandit with
    | none => r
    | some d => _process_bandit_results r d
  match semgrep with
  | none => r
  | some d => _process_semgrep_results r d

/-- `SecurityReportGenerator._map_eslint_severity`. -/
def _map_eslint_severity (severity : Nat) : String :=
  if severity = 2 then "HIGH"
  else if severity = 1 then "MEDIUM"
  else "LOW"

/-- One entry of the ESLint result list. -/
structure EslintResult where
  severity : Option Nat
  ruleId : Option String
  message : Option String
  filePath : Option String
  line : Option Nat
deriving DecidableEq, Repr

/-- The finding dict built inside `_load_sast_results`. -/
def eslint_finding (res : EslintResult) : Finding :=
  { title := res.ruleId.getD "Unknown"
    description := res.message.getD ""
    severity := _map_eslint_severity (res.severity.getD 1)
    category := "SAST"
    tool := "ESLint Security"
    extras := [("location", .str (res.filePath.getD "")),
               ("line", match res.line with | some n => .num n | none => .str "")] }

/-- `SecurityReportGenerator._load_sast_results`. -/
def _load_sast_results (r : ReportData) (o : Option (List EslintResult)) : ReportData :=
  match o with
  | none => r
  | some results => results.foldl (fun r res => add_finding r (eslint_finding res)) r

/-- The finding dict built inside `_load_license_results`. -/
def license_finding (pkg : String) : Finding :=
  { title := "Unknown license for " ++ pkg
    description := "Package " ++ pkg ++ " has an unknown or missing license"
    severity := "MEDIUM"
    category := "License Compliance"
    tool := "license-checker"
    extras := [("package", .str pkg)] }

/-- `SecurityReportGenerator._load_license_results`: each `(package, info)`
item is reduced to the package name and the `license` value if the key is
present; a missing key or the value `"UNKNOWN"` yields a finding. -/
def _load_license_results (r : ReportData) (o : Option (List (String × Option String))) :
    ReportData :=
  match o with
  | none => r
  | some items =>
      items.foldl (fun r item =>
        match item.2 with
        | none => add_finding r (license_finding item.1)
        | some lic => if lic = "UNKNOWN" then add_finding r (license_finding item.1) else r) r

/-- The set of optional scan input files `load_scan_results` looks for, each
already parsed to the fields its loader reads (`none` = file absent, or
unparsable and hence skipped with zero findings). -/
structure ScanInputs where
  trivy : Option (List SarifRun)
  snyk_container : Option (List SnykVuln)
  snyk_dependency : Option (List SnykVuln)
  npm_audit : Option (List NpmVuln)
  checkov : Option (List CheckovCheck)
  tfsec : Option (List TfsecResult)
  terrascan : Option (List TerrascanViolation)
  polaris : Option (List PolarisResult)
  kubebench : Option (List KubeBenchTest)
  bandit : Option (List BanditResult)
  semgrep : Option (List SemgrepResult)
  eslint : Option (List EslintResult)
  license : Option (List (String × Option String))
deriving DecidableEq, Repr

/-- `SecurityReportGenerator.load_scan_results`: the loaders in source order. -/
def load_scan_results (r : ReportData) (inp : ScanInputs) : ReportData :=
  let r := _load_trivy_results r inp.trivy
  let r := _load_snyk_results r inp.snyk_container inp.snyk_dependency
  let r := _load_npm_audit_results r inp.npm_audit
  let r := _load_secrets_results r
  let r := _load_infrastructure_results r inp.checkov inp.tfsec inp.terrascan
  let r := _load_kubernetes_results r inp.polaris inp.kubebench
  let r := _load_compliance_results r inp.bandit inp.semgrep
  let r := _load_sast_results r inp.eslint
  _load_license_results r inp.license

/-- All input files absent. -/
def emptyScanInputs : ScanInputs :=
  { trivy := none, snyk_container := none, snyk_dependency := none, npm_audit := none,
    checkov := none, tfsec := none, terrascan := none, polaris := none, kubebench := none,
    bandit := none, semgrep := none, eslint := none, license := none }

/-! ## Derivers -/

/-- The two strings appended by `generate_recommendations` when
`summary.critical > 0`. -/
def criticalRecs : List String :=
  ["Immediately address all critical vulnerabilities before deployment",
   "Review and update all dependencies with critical vulnerabilities"]

/-- The two strings appended when `summary.high > 0`. -/
def highRecs : List String :=
  ["Prioritize fixing high-severity vulnerabilities in the next sprint",
   "Implement additional security controls for high-risk areas"]

/-- The two strings appended when an Infrastructure-category finding exists. -/
def infraRecs : List String :=
  ["Review and update infrastructure security configurations",
   "Implement least-privilege access controls"]

/-- The two strings appended when a Kubernetes-category finding exists. -/
def k8sRecs : List String :=
  ["Apply Kubernetes security best practices and CIS benchmarks",
   "Enable Pod Security Policies and Network Policies"]

/-- The five unconditional general strings. -/
def generalRecs : List String :=
  ["Implement automated security scanning in CI/CD pipeline",
   "Regular security training for development team",
   "Establish security review process for all code changes",
   "Monitor security advisories for all dependencies",
   "Implement security incident response procedures"]

/-- The recommendation list `generate_recommendations` computes from the
report state, rule by rule in source order. -/
def recsFor (r : ReportData) : List String :=
  let recommendations : List String := []
  let recommendations :=
    if r.summary.critical > 0 then recommendations ++ criticalRecs else recommendations
  let recommendations :=
    if r.summary.high > 0 then recommendations ++ highRecs else recommendations
  let infra_findings := r.findings.filter (fun f => substrOf "Infrastructure" f.category)
  let recommendations :=
    if infra_findings ≠ [] then recommendations ++ infraRecs else recommendations
  let k8s_findings := r.findings.filter (fun f => substrOf "Kubernetes" f.category)
  let recommendations :=
    if k8s_findings ≠ [] then recommendations ++ k8sRecs else recommendations
  recommendations ++ generalRecs

/-- `SecurityReportGenerator.generate_recommendations`: wholesale assignment of
the freshly computed list. -/
def generate_recommendations (r : ReportData) : ReportData :=
  { r with recommendations := recsFor r }

/-- The `compliance_status` dict `generate_compliance_status` computes;
`now` stands for `datetime.now().isoformat()`. -/
def complianceFor (now : String) (r : ReportData) : ComplianceStatus :=
  { overall_status := if r.summary.critical = 0 then "PASS" else "FAIL"
    standards :=
      { owasp_top_10 := if r.summary.critical = 0 then "PASS" else "FAIL"
        cis_benchmarks :=
          if (r.findings.filter (fun f => substrOf "Kubernetes" f.category)).length = 0
          then "PASS" else "FAIL"
        soc_2 := if r.summary.critical = 0 then "PASS" else "FAIL"
        gdpr :=
          if (r.findings.filter (fun f => substrOf "data" (strLower f.title))).length = 0
          then "PASS" else "FAIL" }
    last_updated := now }

/-- `SecurityReportGenerator.generate_compliance_status`: wholesale assignment
of the freshly computed dict. -/
def generate_compliance_status (now : String) (r : ReportData) : ReportData :=
  { r with compliance_status := some (complianceFor now r) }

/-- `SecurityReportGenerator.generate_reports` up to the point the JSON report
is serialized: recommendations first, then compliance status. -/
def generate_reports (now : String) (r : ReportData) : ReportData :=
  generate_compliance_status now (generate_recommendations r)

/-- One whole run of `main`: construct, load every input, derive.  `tGen` and
`tCompliance` are the two `datetime.now()` readings. -/
def runPipeline (inp : ScanInputs) (tGen tCompliance : String) : ReportData :=
  generate_reports tCompliance (load_scan_results (initReportData tGen) inp)

/-- Blank out the two timestamp fields (`scan_metadata.generated_at` and
`compliance_status.last_updated`), the only report content not a function of
the scan inputs. -/
def scrubTimestamps (r : ReportData) : ReportData :=
  { r with
    scan_metadata := { r.scan_metadata with generated_at := "" }
    compliance_status := r.compliance_status.map (fun cs => { cs with last_updated := "" }) }

/-! ## Invariant definition and concrete inputs used by the claims -/

/-- The counting invariant of the aggregator: each summary counter equals the
number of findings carrying that severity and the length of the matching
per-severity list. -/
def counts_ok (r : ReportData) : Prop :=
  r.summary.critical = (r.findings.filter (fun f => decide (f.severity = "CRITICAL"))).length
  ∧ r.summary.critical = r.critical_findings.length
  ∧ r.summary.high = (r.findings.filter (fun f => decide (f.severity = "HIGH"))).length
  ∧ r.summary.high = r.high_findings.length
  ∧ r.summary.medium = (r.findings.filter (fun f => decide (f.severity = "MEDIUM"))).length
  ∧ r.summary.medium = r.medium_findings.length
  ∧ r.summary.low = (r.findings.filter (fun f => decide (f.severity = "LOW"))).length
  ∧ r.summary.low = r.low_findings.length

/-- A SARIF result whose `level` is `"error"`. -/
def errorSarifResult : SarifResult :=
  { level := some "error", message_text := some "CVE-2024-0001 in libexample",
    location_uri := some "image/layer", ruleId := some "CVE-2024-0001" }

/-- The finding the Trivy loader emits for `errorSarifResult`. -/
def errorFinding : Finding := trivy_finding errorSarifResult

/-- A SARIF result with no `level` key: the native default `"warning"` applies. -/
def defaultSarifResult : SarifResult :=
  { level := none, message_text := some "issue in base image", location_uri := none,
    ruleId := none }

/-- The finding the Trivy loader emits for `defaultSarifResult`. -/
def warningFinding : Finding := trivy_finding defaultSarifResult

/-- A CRITICAL finding whose category is a Kubernetes one. -/
def k8sCriticalFinding : Finding :=
  { title := "Privileged container allowed", description := "", severity := "CRITICAL",
    category := "Kubernetes Security", tool := "Polaris", extras := [] }

/-- A CRITICAL finding of a non-infrastructure, non-Kubernetes category. -/
def containerCriticalFinding : Finding :=
  { title := "Remote code execution in libfoo", description := "", severity := "CRITICAL",
    category := "Container Vulnerability", tool := "Trivy", extras := [] }

/-- Replace the `scan_metadata` field. -/
def setMeta (r : ReportData) (m : ScanMetadata) : ReportData :=
  { r with scan_metadata := m }

/-! ## Sanity examples and aggregator lemmas -/

example : strUpper "warning" = "WARNING" := by decide
example : strLower "Sensitive Data" = "sensitive data" := by decide
example : substrOf "Kubernetes" "Kubernetes Security" = true := by decide
example : substrOf "Infrastructure" "Kubernetes Security" = false := by decide
example : substrOf "data" "sensitive data leak" = true := by decide
example : (trivy_finding { level := some "error", message_text := none, location_uri := none, ruleId := none }).severity = "ERROR" := by decide
example : (trivy_finding { level := none, message_text := none, location_uri := none, ruleId := none }).severity = "WARNING" := by decide
example : (snyk_finding { severity := none, title := none, description := none, packageName := none, version := none, cve := [] }).severity = "MEDIUM" := by decide



/-- `_add_finding` always appends its argument to `findings`, whatever the
severity branch taken. -/
lemma add_finding_findings (r : ReportData) (f : Finding) :
    (add_finding r f).findings = r.findings ++ [f] := by
  unfold add_finding
  split_ifs <;> rfl

lemma counts_ok_init (t : String) : counts_ok (initReportData t) :=
  ⟨rfl, rfl, rfl, rfl, rfl, rfl, rfl, rfl⟩

lemma counts_ok_add (r : ReportData) (f : Finding) (h : counts_ok r) :
    counts_ok (add_finding r f) := by
  obtain ⟨h1, h2, h3, h4, h5, h6, h7, h8⟩ := h
  unfold counts_ok add_finding
  split_ifs with hc hh hm hl <;>
    simp_all [List.filter_append, List.filter]

lemma counts_ok_foldl (fs : List Finding) (r : ReportData) (h : counts_ok r) :
    counts_ok (fs.foldl add_finding r) := by
  induction fs generalizing r with
  | nil => exact h
  | cons f fs ih => exact ih _ (counts_ok_add r f h)

/-! ## Claims -/

/-- C1: after every call to the add-finding operation — i.e. after folding any
sequence of findings into the freshly constructed report — each severity
counter equals both the number of findings in `findings` whose severity equals
that severity and the length of the matching per-severity list. -/
theorem C1_summary_counts_invariant (t : String) (fs : List Finding) :
    counts_ok (fs.foldl add_finding (initReportData t)) :=
  counts_ok_foldl fs _ (counts_ok_init t)

/-- C2 counterexample: the Trivy loader, given a SARIF result whose `level` is
`"error"`, emits a finding with severity `"ERROR"` — outside the four-value
enum and not defaulted to MEDIUM — and that value flows into the report. -/
theorem C2_counterexample :
    errorFinding.severity ∉ (["CRITICAL", "HIGH", "MEDIUM", "LOW"] : List String)
    ∧ errorFinding.severity ≠ "MEDIUM"
    ∧ ((_load_trivy_results (initReportData "") (some [⟨[errorSarifResult]⟩])).findings.map
        Finding.severity) = ["ERROR"] :=
  ⟨by decide, by decide, by decide⟩

/-- C2 amended: every loader's emitted severity is that loader's fixed
mapping of the input record — uppercased native text for the text-based tools
(with the tool's native default when the field is missing), the numeric
ESLint map, constant MEDIUM for posture and license checks.  A missing
severity field defaults to MEDIUM in every loader except Trivy, whose native
default `"warning"` uppercases to `"WARNING"`; and a native value that does
not map onto the four-value enum is emitted as uppercased text rather than
defaulted to MEDIUM, e.g. Trivy SARIF level `"error"` yields `"ERROR"`. -/
theorem C2_loader_severity_mapping (sr : SarifResult) (sv : SnykVuln) (nv : NpmVuln)
    (cc : CheckovCheck) (tr : TfsecResult) (tv : TerrascanViolation) (br : BanditResult)
    (sg : SemgrepResult) (er : EslintResult) (pr : PolarisResult) (pc : PolarisCheck)
    (ki : KubeBenchItem) (pkg : String) :
    ((trivy_finding sr).severity = strUpper (sr.level.getD "warning")
      ∧ (snyk_finding sv).severity = strUpper (sv.severity.getD "medium")
      ∧ (npm_finding nv).severity = strUpper (nv.severity.getD "medium")
      ∧ (checkov_finding cc).severity = strUpper (cc.severity.getD "MEDIUM")
      ∧ (tfsec_finding tr).severity = strUpper (tr.severity.getD "MEDIUM")
      ∧ (terrascan_finding tv).severity = strUpper (tv.severity.getD "MEDIUM")
      ∧ (bandit_finding br).severity = strUpper (br.issue_severity.getD "MEDIUM")
      ∧ (semgrep_finding sg).severity = strUpper (sg.extra_severity.getD "MEDIUM")
      ∧ (eslint_finding er).severity = _map_eslint_severity (er.severity.getD 1)
      ∧ (polaris_finding pr pc).severity = "MEDIUM"
      ∧ (kubebench_finding ki).severity = "MEDIUM"
      ∧ (license_finding pkg).severity = "MEDIUM")
    ∧ ((snyk_finding { sv with severity := none }).severity = "MEDIUM"
      ∧ (npm_finding { nv with severity := none }).severity = "MEDIUM"
      ∧ (checkov_finding { cc with severity := none }).severity = "MEDIUM"
      ∧ (tfsec_finding { tr with severity := none }).severity = "MEDIUM"
      ∧ (terrascan_finding { tv with severity := none }).severity = "MEDIUM"
      ∧ (bandit_finding { br with issue_severity := none }).severity = "MEDIUM"
      ∧ (semgrep_finding { sg with extra_severity := none }).severity = "MEDIUM"
      ∧ (eslint_finding { er with severity := none }).severity = "MEDIUM")
    ∧ ((trivy_finding { sr with level := none }).severity = "WARNING"
      ∧ (trivy_finding { sr with level := some "error" }).severity = "ERROR"
      ∧ "WARNING" ∉ (["CRITICAL", "HIGH", "MEDIUM", "LOW"] : List String)
      ∧ "ERROR" ∉ (["CRITICAL", "HIGH", "MEDIUM", "LOW"] : List String)) :=
  ⟨⟨rfl, rfl, rfl, rfl, rfl, rfl, rfl, rfl, rfl, rfl, rfl, rfl⟩,
   ⟨rfl, rfl, rfl, rfl, rfl, rfl, rfl, rfl⟩,
   ⟨rfl, rfl, by decide, by decide⟩⟩

/-- C3: contrary to the fail-fast contract, `_add_finding` completes silently
on a severity outside the four enum values: at the failing input (the finding
the Trivy loader emits for a SARIF result with no `level`, severity
`"WARNING"`) it returns normally, appends the finding, and changes no counter
and no per-severity list. -/
theorem C3_add_finding_silent_on_unknown :
    warningFinding.severity = "WARNING"
    ∧ (add_finding (initReportData "") warningFinding).findings = [warningFinding]
    ∧ (add_finding (initReportData "") warningFinding).summary
        = { critical := 0, high := 0, medium := 0, low := 0 }
    ∧ (add_finding (initReportData "") warningFinding).critical_findings = []
    ∧ (add_finding (initReportData "") warningFinding).high_findings = []
    ∧ (add_finding (initReportData "") warningFinding).medium_findings = []
    ∧ (add_finding (initReportData "") warningFinding).low_findings = [] := by
  decide

/-- C9: a finding whose severity is none of the four enum values is appended
to `findings` while the summary and all four per-severity lists are left
unchanged; consequently (last conjunct) the findings list outgrows the sum of
the four summary counters. -/
theorem C9_unknown_severity_uncounted (r : ReportData) (f : Finding)
    (h : f.severity ∉ (["CRITICAL", "HIGH", "MEDIUM", "LOW"] : List String)) :
    (add_finding r f).findings = r.findings ++ [f]
    ∧ (add_finding r f).summary = r.summary
    ∧ (add_finding r f).critical_findings = r.critical_findings
    ∧ (add_finding r f).high_findings = r.high_findings
    ∧ (add_finding r f).medium_findings = r.medium_findings
    ∧ (add_finding r f).low_findings = r.low_findings
    ∧ (add_finding (initReportData "") f).findings.length >
        (add_finding (initReportData "") f).summary.critical
        + (add_finding (initReportData "") f).summary.high
        + (add_finding (initReportData "") f).summary.medium
        + (add_finding (initReportData "") f).summary.low := by
  have h1 : ¬ f.severity = "CRITICAL" := fun hc => h (by simp [hc])
  have h2 : ¬ f.severity = "HIGH" := fun hc => h (by simp [hc])
  have h3 : ¬ f.severity = "MEDIUM" := fun hc => h (by simp [hc])
  have h4 : ¬ f.severity = "LOW" := fun hc => h (by simp [hc])
  unfold add_finding
  simp [h1, h2, h3, h4, initReportData]

/-- C9 witness: the theorem applied at the concrete finding the Trivy loader
emits for SARIF level `"error"`. -/
theorem C9_witness :
    errorFinding.severity ∉ (["CRITICAL", "HIGH", "MEDIUM", "LOW"] : List String)
    ∧ (add_finding (initReportData "") errorFinding).summary = (initReportData "").summary :=
  ⟨by decide,
   (C9_unknown_severity_uncounted (initReportData "") errorFinding (by decide)).2.1⟩

/-! ## Filter and fold helper lemmas -/

lemma length_filter_eq_zero_iff {α : Type} (l : List α) (p : α → Bool) :
    (l.filter p).length = 0 ↔ ¬ ∃ a ∈ l, p a = true := by
  simp [List.length_eq_zero, List.filter_eq_nil_iff]

lemma foldl_add_if_findings {α : Type} (p : α → Prop) [DecidablePred p] (g : α → Finding)
    (xs : List α) (r : ReportData) :
    (xs.foldl (fun r x => if p x then add_finding r (g x) else r) r).findings
      = r.findings ++ (xs.filter (fun x => decide (p x))).map g := by
  induction xs generalizing r with
  | nil => simp
  | cons x xs ih =>
      by_cases h : p x
      · simp [h, ih, add_finding_findings, List.filter_cons]
      · simp [h, ih, List.filter_cons]

lemma polaris_findings_characterization (r : ReportData) (results : List PolarisResult) :
    (_process_polaris_results r results).findings
      = r.findings ++ results.flatMap (fun res =>
          (res.checks.filter (fun c => decide (c.result = some "FAIL"))).map
            (polaris_finding res)) := by
  unfold _process_polaris_results
  induction results generalizing r with
  | nil => simp
  | cons res rest ih =>
      rw [List.foldl_cons, ih,
          foldl_add_if_findings (fun c => c.result = some "FAIL") (polaris_finding res)]
      simp [List.append_assoc]

lemma kubebench_findings_characterization (r : ReportData) (tests : List KubeBenchTest) :
    (_process_kubebench_results r tests).findings
      = r.findings ++ tests.flatMap (fun t =>
          (t.results.filter (fun i => decide (i.status = some "FAIL"))).map kubebench_finding) := by
  unfold _process_kubebench_results
  induction tests generalizing r with
  | nil => simp
  | cons t rest ih =>
      rw [List.foldl_cons, ih,
          foldl_add_if_findings (fun i => i.status = some "FAIL") kubebench_finding]
      simp [List.append_assoc]

/-- C4: the compliance deriver marks `overall_status` FAIL exactly when the
critical counter is positive, the CIS Benchmarks standard FAIL exactly when
some finding's category contains "Kubernetes", and the GDPR standard FAIL
exactly when some finding's lowercased title contains "data". -/
theorem C4_compliance_predicates (t : String) (r : ReportData) :
    ((complianceFor t r).overall_status = "FAIL" ↔ 0 < r.summary.critical)
    ∧ ((complianceFor t r).standards.cis_benchmarks = "FAIL"
        ↔ ∃ f ∈ r.findings, substrOf "Kubernetes" f.category = true)
    ∧ ((complianceFor t r).standards.gdpr = "FAIL"
        ↔ ∃ f ∈ r.findings, substrOf "data" (strLower f.title) = true) := by
  unfold complianceFor
  refine ⟨?_, ?_, ?_⟩
  · by_cases h : r.summary.critical = 0
    · simp [h]
    · simp [h, Nat.pos_of_ne_zero h]
  · by_cases h : (r.findings.filter (fun f => substrOf "Kubernetes" f.category)).length = 0
    · rw [length_filter_eq_zero_iff] at h
      simp_all
    · rw [length_filter_eq_zero_iff, not_not] at h
      simp_all
  · by_cases h : (r.findings.filter (fun f => substrOf "data" (strLower f.title))).length = 0
    · rw [length_filter_eq_zero_iff] at h
      simp_all
    · rw [length_filter_eq_zero_iff, not_not] at h
      simp_all

/-- C5 counterexample: a report holding exactly one CRITICAL finding — one
whose category contains "Kubernetes" — yields 9 recommendation strings, not 7:
the Kubernetes rule fires as well. -/
theorem C5_counterexample :
    k8sCriticalFinding.severity = "CRITICAL"
    ∧ (add_finding (initReportData "") k8sCriticalFinding).findings = [k8sCriticalFinding]
    ∧ (generate_recommendations (add_finding (initReportData "") k8sCriticalFinding)).recommendations
        = criticalRecs ++ k8sRecs ++ generalRecs
    ∧ (generate_recommendations (add_finding (initReportData "") k8sCriticalFinding)).recommendations.length
        ≠ 7 := by
  decide

/-- C5 amended: the five rules fire independently in the documented order, so
a report holding exactly one CRITICAL finding whose category contains neither
"Infrastructure" nor "Kubernetes" yields exactly the two critical-specific
strings followed by the five general strings (7 total). -/
theorem C5_one_critical_gives_seven (t : String) (f : Finding)
    (hsev : f.severity = "CRITICAL")
    (hinf : substrOf "Infrastructure" f.category = false)
    (hk8 : substrOf "Kubernetes" f.category = false) :
    (generate_recommendations (add_finding (initReportData t) f)).recommendations
      = criticalRecs ++ generalRecs
    ∧ criticalRecs.length = 2 ∧ generalRecs.length = 5 := by
  refine ⟨?_, rfl, rfl⟩
  simp [generate_recommendations, recsFor, add_finding, hsev, hinf, hk8, initReportData,
        List.filter_cons]

/-- C5 witness: the amended theorem applied at a concrete CRITICAL container
vulnerability. -/
theorem C5_witness :
    (generate_recommendations (add_finding (initReportData "") containerCriticalFinding)).recommendations
      = criticalRecs ++ generalRecs
    ∧ criticalRecs.length = 2 ∧ generalRecs.length = 5 :=
  C5_one_critical_gives_seven "" containerCriticalFinding (by decide) (by decide) (by decide)

/-- C6: a run over zero input files completes with all four summary counters
0, an empty findings list, exactly the five fixed general recommendations, and
overall compliance PASS. -/
theorem C6_empty_run (t tc : String) :
    (runPipeline emptyScanInputs t tc).summary = { critical := 0, high := 0, medium := 0, low := 0 }
    ∧ (runPipeline emptyScanInputs t tc).findings = []
    ∧ (runPipeline emptyScanInputs t tc).recommendations = generalRecs
    ∧ generalRecs.length = 5
    ∧ ((runPipeline emptyScanInputs t tc).compliance_status.map ComplianceStatus.overall_status)
        = some "PASS" :=
  ⟨rfl, rfl, rfl, rfl, rfl⟩

/-- C7: the Polaris and kube-bench loaders append exactly one finding per
check whose outcome is the failure value "FAIL" (passing checks produce
nothing), and every finding they build carries severity MEDIUM. -/
theorem C7_posture_loaders_fail_only (r : ReportData) (results : List PolarisResult)
    (tests : List KubeBenchTest) :
    ((_process_polaris_results r results).findings
        = r.findings ++ results.flatMap (fun res =>
            (res.checks.filter (fun c => decide (c.result = some "FAIL"))).map
              (polaris_finding res)))
    ∧ (∀ res c, (polaris_finding res c).severity = "MEDIUM")
    ∧ ((_process_kubebench_results r tests).findings
        = r.findings ++ tests.flatMap (fun t =>
            (t.results.filter (fun i => decide (i.status = some "FAIL"))).map kubebench_finding))
    ∧ (∀ i, (kubebench_finding i).severity = "MEDIUM") :=
  ⟨polaris_findings_characterization r results, fun _ _ => rfl,
   kubebench_findings_characterization r tests, fun _ => rfl⟩

/-- C10: both derivers assign their output field wholesale from the loaded
state, so a second invocation (with any timestamp) reproduces the first:
recommendations are unchanged, and the compliance mapping agrees once the
timestamp field is set aside. -/
theorem C10_derivers_idempotent (r : ReportData) (t t' : String) :
    generate_recommendations (generate_recommendations r) = generate_recommendations r
    ∧ (generate_compliance_status t' (generate_compliance_status t r)).compliance_status.map
        (fun cs => { cs with last_updated := "" })
        = (generate_compliance_status t r).compliance_status.map
            (fun cs => { cs with last_updated := "" })
    ∧ (generate_compliance_status t' (generate_compliance_status t r)).recommendations
        = (generate_compliance_status t r).recommendations :=
  ⟨rfl, rfl, rfl⟩

/-! ## Determinism machinery (C8): no load step reads or writes
`scan_metadata`, so substituting the metadata commutes with loading. -/

lemma setMeta_self (r : ReportData) : setMeta r r.scan_metadata = r := rfl

lemma add_finding_meta_comm (f : Finding) (r : ReportData) (m : ScanMetadata) :
    add_finding (setMeta r m) f = setMeta (add_finding r f) m := by
  unfold add_finding setMeta
  split_ifs <;> rfl

lemma foldl_meta_comm {α : Type} (step : ReportData → α → ReportData)
    (hstep : ∀ r a m, step (setMeta r m) a = setMeta (step r a) m)
    (xs : List α) (r : ReportData) (m : ScanMetadata) :
    xs.foldl step (setMeta r m) = setMeta (xs.foldl step r) m := by
  induction xs generalizing r with
  | nil => rfl
  | cons x xs ih => rw [List.foldl_cons, List.foldl_cons, hstep, ih]

lemma trivy_meta_comm (o : Option (List SarifRun)) (r : ReportData) (m : ScanMetadata) :
    _load_trivy_results (setMeta r m) o = setMeta (_load_trivy_results r o) m := by
  cases o with
  | none => rfl
  | some runs =>
      exact foldl_meta_comm _
        (fun r rn m => foldl_meta_comm _
          (fun r res m => add_finding_meta_comm (trivy_finding res) r m) rn.results r m)
        runs r m

lemma snyk_one_meta_comm (o : Option (List SnykVuln)) (r : ReportData) (m : ScanMetadata) :
    _load_snyk_one (setMeta r m) o = setMeta (_load_snyk_one r o) m := by
  cases o with
  | none => rfl
  | some vs =>
      exact foldl_meta_comm _
        (fun r v m => add_finding_meta_comm (snyk_finding v) r m) vs r m

lemma snyk_meta_comm (c d : Option (List SnykVuln)) (r : ReportData) (m : ScanMetadata) :
    _load_snyk_results (setMeta r m) c d = setMeta (_load_snyk_results r c d) m := by
  simp only [_load_snyk_results, snyk_one_meta_comm]

lemma npm_meta_comm (o : Option (List NpmVuln)) (r : ReportData) (m : ScanMetadata) :
    _load_npm_audit_results (setMeta r m) o = setMeta (_load_npm_audit_results r o) m := by
  cases o with
  | none => rfl
  | some vs =>
      exact foldl_meta_comm _
        (fun r v m => add_finding_meta_comm (npm_finding v) r m) vs r m

lemma checkov_meta_comm (d : List CheckovCheck) (r : ReportData) (m : ScanMetadata) :
    _process_checkov_results (setMeta r m) d = setMeta (_process_checkov_results r d) m := by
  unfold _process_checkov_results
  exact foldl_meta_comm _
    (fun r c m => add_finding_meta_comm (checkov_finding c) r m) d r m

lemma tfsec_meta_comm (d : List TfsecResult) (r : ReportData) (m : ScanMetadata) :
    _process_tfsec_results (setMeta r m) d = setMeta (_process_tfsec_results r d) m := by
  unfold _process_tfsec_results
  exact foldl_meta_comm _
    (fun r res m => add_finding_meta_comm (tfsec_finding res) r m) d r m

lemma terrascan_meta_comm (d : List TerrascanViolation) (r : ReportData) (m : ScanMetadata) :
    _process_terrascan_results (setMeta r m) d = setMeta (_process_terrascan_results r d) m := by
  unfold _process_terrascan_results
  exact foldl_meta_comm _
    (fun r res m => add_finding_meta_comm (terrascan_finding res) r m) d r m

lemma infra_meta_comm (c : Option (List CheckovCheck)) (tf : Option (List TfsecResult))
    (ts : Option (List TerrascanViolation)) (r : ReportData) (m : ScanMetadata) :
    _load_infrastructure_results (setMeta r m) c tf ts
      = setMeta (_load_infrastructure_results r c tf ts) m := by
  cases c <;> cases tf <;> cases ts <;>
    simp only [_load_infrastructure_results, checkov_meta_comm, tfsec_meta_comm,
      terrascan_meta_comm]

lemma polaris_step_meta_comm (res : PolarisResult) (r : ReportData) (c : PolarisCheck)
    (m : ScanMetadata) :
    (if c.result = some "FAIL" then add_finding (setMeta r m) (polaris_finding res c)
     else setMeta r m)
      = setMeta (if c.result = some "FAIL" then add_finding r (polaris_finding res c) else r) m := by
  split_ifs with h
  · exact add_finding_meta_comm _ r m
  · rfl

lemma kubebench_step_meta_comm (r : ReportData) (i : KubeBenchItem) (m : ScanMetadata) :
    (if i.status = some "FAIL" then add_finding (setMeta r m) (kubebench_finding i)
     else setMeta r m)
      = setMeta (if i.status = some "FAIL" then add_finding r (kubebench_finding i) else r) m := by
  split_ifs with h
  · exact add_finding_meta_comm _ r m
  · rfl

lemma polaris_proc_meta_comm (d : List PolarisResult) (r : ReportData) (m : ScanMetadata) :
    _process_polaris_results (setMeta r m) d = setMeta (_process_polaris_results r d) m := by
  unfold _process_polaris_results
  exact foldl_meta_comm _
    (fun r res m => foldl_meta_comm _
      (fun r c m => polaris_step_meta_comm res r c m) res.checks r m)
    d r m

lemma kubebench_proc_meta_comm (d : List KubeBenchTest) (r : ReportData) (m : ScanMetadata) :
    _process_kubebench_results (setMeta r m) d = setMeta (_process_kubebench_results r d) m := by
  unfold _process_kubebench_results
  exact foldl_meta_comm _
    (fun r t m => foldl_meta_comm _
      (fun r i m => kubebench_step_meta_comm r i m) t.results r m)
    d r m

lemma k8s_meta_comm (p : Option (List PolarisResult)) (k : Option (List KubeBenchTest))
    (r : ReportData) (m : ScanMetadata) :
    _load_kubernetes_results (setMeta r m) p k = setMeta (_load_kubernetes_results r p k) m := by
  cases p <;> cases k <;>
    simp only [_load_kubernetes_results, polaris_proc_meta_comm, kubebench_proc_meta_comm]

lemma bandit_meta_comm (d : List BanditResult) (r : ReportData) (m : ScanMetadata) :
    _process_bandit_results (setMeta r m) d = setMeta (_process_bandit_results r d) m := by
  unfold _process_bandit_results
  exact foldl_meta_comm _
    (fun r res m => add_finding_meta_comm (bandit_finding res) r m) d r m

lemma semgrep_meta_comm (d : List SemgrepResult) (r : ReportData) (m : ScanMetadata) :
    _process_semgrep_results (setMeta r m) d = setMeta (_process_semgrep_results r d) m := by
  unfold _process_semgrep_results
  exact foldl_meta_comm _
    (fun r res m => add_finding_meta_comm (semgrep_finding res) r m) d r m

lemma compliance_meta_comm (b : Option (List BanditResult)) (s : Option (List SemgrepResult))
    (r : ReportData) (m : ScanMetadata) :
    _load_compliance_results (setMeta r m) b s = setMeta (_load_compliance_results r b s) m := by
  cases b <;> cases s <;>
    simp only [_load_compliance_results, bandit_meta_comm, semgrep_meta_comm]

lemma sast_meta_comm (o : Option (List EslintResult)) (r : ReportData) (m : ScanMetadata) :
    _load_sast_results (setMeta r m) o = setMeta (_load_sast_results r o) m := by
  cases o with
  | none => rfl
  | some rs =>
      exact foldl_meta_comm _
        (fun r res m => add_finding_meta_comm (eslint_finding res) r m) rs r m

lemma license_step_meta_comm (r : ReportData) (item : String × Option String)
    (m : ScanMetadata) :
    (match item.2 with
     | none => add_finding (setMeta r m) (license_finding item.1)
     | some lic =>
         if lic = "UNKNOWN" then add_finding (setMeta r m) (license_finding item.1)
         else setMeta r m)
      = setMeta (match item.2 with
           | none => add_finding r (license_finding item.1)
           | some lic => if lic = "UNKNOWN" then add_finding r (license_finding item.1) else r)
          m := by
  rcases item with ⟨pkg, lic⟩
  cases lic with
  | none => exact add_finding_meta_comm _ r m
  | some l =>
      simp only []
      split_ifs with h
      · exact add_finding_meta_comm _ r m
      · rfl

lemma license_meta_comm (o : Option (List (String × Option String))) (r : ReportData)
    (m : ScanMetadata) :
    _load_license_results (setMeta r m) o = setMeta (_load_license_results r o) m := by
  cases o with
  | none => rfl
  | some items =>
      exact foldl_meta_comm _
        (fun r item m => license_step_meta_comm r item m) items r m

lemma load_meta_comm (inp : ScanInputs) (r : ReportData) (m : ScanMetadata) :
    load_scan_results (setMeta r m) inp = setMeta (load_scan_results r inp) m := by
  simp only [load_scan_results, _load_secrets_results]
  rw [trivy_meta_comm, snyk_meta_comm, npm_meta_comm, infra_meta_comm, k8s_meta_comm,
      compliance_meta_comm, sast_meta_comm, license_meta_comm]

lemma load_scan_metadata_eq (inp : ScanInputs) (r : ReportData) :
    (load_scan_results r inp).scan_metadata = r.scan_metadata := by
  have h2 : load_scan_results r inp = setMeta (load_scan_results r inp) r.scan_metadata := by
    conv_lhs => rw [show r = setMeta r r.scan_metadata from rfl, load_meta_comm]
  rw [h2]
  rfl

lemma scrub_pipeline (inp : ScanInputs) (t tc u uc : String) :
    scrubTimestamps (runPipeline inp t tc) = scrubTimestamps (runPipeline inp u uc) := by
  unfold runPipeline generate_reports
  rw [show initReportData t
        = setMeta (initReportData "")
            { generated_at := t, project := "CodePal", version := "1.0.0" } from rfl,
      show initReportData u
        = setMeta (initReportData "")
            { generated_at := u, project := "CodePal", version := "1.0.0" } from rfl,
      load_meta_comm, load_meta_comm]
  rfl

/-- C8: the pipeline is deterministic in its inputs: two runs over the same
parsed inputs agree on the whole report once the two timestamp fields are
blanked, and those two fields carry exactly the two clock readings, the only
non-input dependence of the run. -/
theorem C8_pipeline_deterministic (inp : ScanInputs) (t1 tc1 t2 tc2 : String) :
    scrubTimestamps (runPipeline inp t1 tc1) = scrubTimestamps (runPipeline inp t2 tc2)
    ∧ (runPipeline inp t1 tc1).scan_metadata.generated_at = t1
    ∧ ((runPipeline inp t1 tc1).compliance_status.map ComplianceStatus.last_updated) = some tc1 := by
  refine ⟨scrub_pipeline inp t1 tc1 t2 tc2, ?_, rfl⟩
  show (load_scan_results (initReportData t1) inp).scan_metadata.generated_at = t1
  rw [load_scan_metadata_eq]
  rfl

end SecReport
